import Mathlib

/-! # glidar: the frame loop of `main.cpp`

A shallow embedding of `src/main.cpp` (the LIDAR simulator's entry point):
command-line parsing, the rendezvous handshake `sync_publish`, and the
`do { ... } while (...)` frame loop, together with the properties of the
capture / streaming pipeline that follow from them.

Conventions of the embedding.

* `float` and `double` values are rationals; no statement below depends on
  rounding.
* `int` values are integers wrapped into the 32-bit range (`toInt32`),
  `unsigned int` values are naturals below `2^32`, `size_t` values are
  naturals below `2^64`.
* The C library (`atoi`, `atof`) and the window system (GLFW, GLEW) are an
  explicit `World`: every value the program reads from them is a field of it.
* The observable behaviour of a run is its trace: the calls made on the two
  ZeroMQ sockets and on the `scene` object, in program order. Every such call
  is taken to return normally.
* A run is given the inputs of finitely many loop iterations; when they are
  used up before the loop condition fails, the run is reported as still
  running.
* `HAS_ZEROMQ` is a boolean parameter `zmq` of the definitions it affects.
-/

namespace Glidar

/-! ## Machine integers -/

/-- Wrap an integer into the range of a 32-bit two's complement `int`. -/
def toInt32 (x : Int) : Int := (x + 2 ^ 31) % 2 ^ 32 - 2 ^ 31

/-- Conversion of an `int` to `unsigned int`. -/
def toUInt32 (x : Int) : Nat := (x % 2 ^ 32).toNat

/-- Conversion of an `int` to `size_t` (64-bit). -/
def toSizeT (x : Int) : Nat := (x % 2 ^ 64).toNat

/-- The value of `sizeof(float)`. -/
def sizeofFloat : Nat := 4

/-- The constant `SPEED = 36.0f`. -/
def SPEED : ℚ := 36

/-! ## Command line -/

/-- Undefined behaviour reachable while `main` reads its arguments. -/
inductive Fault
  /-- The pointer `argv[i]` is used as a C string although `i ≥ argc`. -/
  | argvOutOfRange (i : Nat)
  /-- The expression `filename_or_port[1]` is evaluated on an empty string. -/
  | stringIndexOutOfRange
  deriving DecidableEq, Repr

deriving instance DecidableEq for Except

/-- Everything the program reads from outside during one frame, in the order of
the calls in the loop body. -/
structure FrameInput where
  /-- Result of `glfwGetKey(window, GLFW_KEY_MINUS) == GLFW_PRESS`. -/
  keyMinus : Bool
  /-- Result of `glfwGetKey(window, GLFW_KEY_EQUAL) == GLFW_PRESS`. -/
  keyEqual : Bool
  /-- Result of `glfwGetKey(window, GLFW_KEY_S) == GLFW_PRESS` (line 198). -/
  keyS : Bool
  /-- Result of `glfwGetKey(window, GLFW_KEY_S) == GLFW_RELEASE` (line 203). -/
  keySReleased : Bool
  /-- Result of `glfwGetMouseButton(window, GLFW_MOUSE_BUTTON_1) == GLFW_PRESS`. -/
  mouse1 : Bool
  /-- Result of `glfwGetMouseButton(window, GLFW_MOUSE_BUTTON_1) == GLFW_RELEASE`. -/
  mouse1Released : Bool
  /-- Cursor position stored by `glfwGetCursorPos`. -/
  mouse_x : ℚ
  mouse_y : ℚ
  /-- Value returned by `scene.write_point_cloud`. -/
  pointCount : Nat
  /-- Value returned by `glfwGetTime()` at the end of the body (line 268). -/
  time : ℚ
  /-- Result of `glfwGetKey(window, GLFW_KEY_ESCAPE) == GLFW_PRESS`. -/
  keyEscape : Bool
  /-- Result of `glfwWindowShouldClose(window) != 0`. -/
  windowShouldClose : Bool
  deriving DecidableEq

/-- The environment of one run. -/
structure World where
  /-- The C library function `atoi`. -/
  atoi : String → Int
  /-- The C library function `atof`. -/
  atof : String → ℚ
  /-- Whether `glfwInit()` returned non-zero. -/
  glfwInit : Bool
  /-- Whether `glfwCreateWindow` returned a window. -/
  windowCreated : Bool
  /-- Whether `glewInit() == GLEW_OK`. -/
  glewInit : Bool
  /-- The first `glfwGetTime()` reading, taken before the loop (line 166). -/
  startTime : ℚ
  /-- The inputs of the successive loop iterations. -/
  inputs : List FrameInput

/-- The local variables of `main` that hold the parsed command line. -/
structure Args where
  model_filename : String
  model_scale_factor : ℚ
  model_rotate_x : ℚ
  model_rotate_y : ℚ
  model_rotate_z : ℚ
  model_init_rotate_x : ℚ
  model_init_rotate_y : ℚ
  model_init_rotate_z : ℚ
  camera_z : ℚ
  width : Nat
  height : Nat
  fov : ℚ
  filename_or_port : String
  pcd_filename : String
  port : Int
  /-- Declared only under `HAS_ZEROMQ`. -/
  frequency : Int
  deriving DecidableEq

/-- The expression `argc > i ? f(argv[i]) : d`. -/
def argOr {α : Type} (argv : List String) (i : Nat) (f : String → α) (d : α) : α :=
  if argv.length > i then f (argv.getD i "") else d

/-- The expression `argv[i]` used as a C string without a test of `argc`. -/
def argvAt (argv : List String) (i : Nat) : Except Fault String :=
  match argv.get? i with
  | some s => .ok s
  | none => .error (.argvOutOfRange i)

/-- The expression `s[1]` on a `std::string`: the second character, the
terminating null character when `s` has length one, undefined on the empty
string. -/
def charAt1 (s : String) : Except Fault Char :=
  match s.data with
  | [] => .error .stringIndexOutOfRange
  | [_] => .ok (Char.ofNat 0)
  | _ :: c :: _ => .ok c

/-- Lines 95-116 of `main`: the declarations initialised from `argv`. -/
def parseArgs (w : World) (argv : List String) : Except Fault Args :=
  let model_filename := argOr argv 1 id "test.obj"
  let model_scale_factor := argOr argv 2 w.atof 1
  let model_rotate_x := argOr argv 3 w.atof 0
  let model_rotate_y := argOr argv 4 w.atof 0
  let model_rotate_z := argOr argv 5 w.atof 0
  let model_init_rotate_x := argOr argv 6 w.atof 0
  let model_init_rotate_y := argOr argv 7 w.atof 0
  let model_init_rotate_z := argOr argv 8 w.atof 0
  let camera_z := argOr argv 9 w.atof 1000
  let width := argOr argv 10 (fun s => toUInt32 (toInt32 (w.atoi s))) 256
  let height := argOr argv 11 (fun s => toUInt32 (toInt32 (w.atoi s))) 256
  let fov := argOr argv 12 w.atof 20
  let filename_or_port := argOr argv 13 id "-f"
  match charAt1 filename_or_port with
  | .error e => .error e
  | .ok c =>
    match (if c = 'f' then argvAt argv 14 else .ok "") with
    | .error e => .error e
    | .ok pcd_filename =>
      match (if c = 'p' then (argvAt argv 14).map (fun s => toInt32 (w.atoi s)) else .ok 0) with
      | .error e => .error e
      | .ok port =>
        let frequency := argOr argv 15 (fun s => toInt32 (w.atoi s)) 50
        .ok { model_filename, model_scale_factor, model_rotate_x, model_rotate_y,
              model_rotate_z, model_init_rotate_x, model_init_rotate_y,
              model_init_rotate_z, camera_z, width, height, fov, filename_or_port,
              pcd_filename, port, frequency }

/-! ## Trace -/

/-- The two ZeroMQ sockets of `main`. -/
inductive Socket
  | publisher
  | sync_service
  deriving DecidableEq, Repr

/-- One observable call: a method of a socket or of the `scene` object. -/
inductive Event
  /-- Call `socket.bind(address)`. -/
  | bind (socket : Socket) (address : String)
  /-- Call `socket.recv(&message)`. -/
  | recv (socket : Socket)
  /-- Call `socket.send(message)` with a message of `size` bytes. -/
  | send (socket : Socket) (size : Nat)
  /-- Call `scene.projection_setup(fov)`. -/
  | projection_setup (fov : ℚ)
  /-- Call `scene.move_camera(&shader_program, amount)`. -/
  | move_camera (amount : ℚ)
  /-- Call `scene.render(&shader_program, fov, rx, ry, rz, box)`. -/
  | render (fov rx ry rz : ℚ) (box : Bool)
  /-- Call `scene.render(&shader_program, a, b, c, d)` with five arguments, as
  written on the mouse-click path (line 231). -/
  | render5 (a b c : ℚ) (d : Bool)
  /-- Call `scene.unproject(height, mouse_x, mouse_y)`. -/
  | unproject (height : Nat) (mouse_x mouse_y : ℚ)
  /-- Call `scene.save_point_cloud(filename, width, height)`. -/
  | save_point_cloud (filename : String) (width height : Nat)
  /-- Call `scene.save_transformation_metadata(filename, rx, ry, rz)`. -/
  | save_transformation_metadata (filename : String) (rx ry rz : ℚ)
  /-- Call `scene.write_point_cloud(send_buffer, width, height)`. -/
  | write_point_cloud (width height : Nat)
  deriving DecidableEq

/-! ## Rendezvous -/

/-- The function `sync_publish(publisher, sync_service, port)`, lines 67-87. The
sum `port+1` is an `int`. -/
def sync_publish (port : Int) : List Event :=
  let publish_address_string := "tcp://*:" ++ toString port
  let sync_address_string := "tcp://*:" ++ toString (toInt32 (port + 1))
  [ Event.bind .publisher publish_address_string,
    Event.bind .sync_service sync_address_string,
    Event.recv .sync_service,
    Event.send .sync_service 0 ]

/-! ## Frame loop -/

/-- The local variables of `main` that the frame loop reads and writes. -/
structure LoopState where
  last_time : ℚ
  current_time : ℚ
  delta_time : ℚ
  rx : ℚ
  ry : ℚ
  rz : ℚ
  mouse_button_pressed : Bool
  s_key_pressed : Bool
  save_and_quit : Bool
  saved_now_quit : Bool
  loopcount : Nat
  deriving DecidableEq

/-- Lines 165-185: the state in which the loop is entered. -/
def initialState (w : World) (a : Args) : LoopState :=
  { last_time := 0
    current_time := w.startTime
    delta_time := w.startTime - 0
    rx := a.model_init_rotate_x
    ry := a.model_init_rotate_y
    rz := a.model_init_rotate_z
    mouse_button_pressed := false
    s_key_pressed := false
    save_and_quit := false
    saved_now_quit := false
    loopcount := 0 }

/-- Lines 189-196: camera motion on the minus and equal keys. -/
def cameraKeys (s : LoopState) (inp : FrameInput) : List Event :=
  (if inp.keyMinus then [Event.move_camera (s.delta_time * SPEED)] else []) ++
  (if inp.keyEqual then [Event.move_camera (s.delta_time * -SPEED)] else [])

/-- Lines 198-200: latch the S key. -/
def latchSKey (s : LoopState) (inp : FrameInput) : LoopState :=
  if inp.keyS then { s with s_key_pressed := true } else s

/-- Lines 203-217: write a PCD file on save-and-quit or when the S key is
released. -/
def capture (a : Args) (s : LoopState) (inp : FrameInput) : LoopState × List Event :=
  if s.save_and_quit || (s.s_key_pressed && inp.keySReleased) then
    let name := if s.save_and_quit then a.pcd_filename else "buffer"
    ({ s with
        s_key_pressed := false
        saved_now_quit := if s.save_and_quit then true else s.saved_now_quit },
     [ Event.render a.fov s.rx s.ry s.rz false,
       Event.save_point_cloud name a.width a.height,
       Event.save_transformation_metadata name s.rx s.ry s.rz ])
  else (s, [])

/-- Lines 219-221: latch the mouse button. -/
def latchMouse (s : LoopState) (inp : FrameInput) : LoopState :=
  if inp.mouse1 then { s with mouse_button_pressed := true } else s

/-- Lines 223-241: report the scene position under a mouse click. -/
def click (a : Args) (s : LoopState) (inp : FrameInput) : LoopState × List Event :=
  if s.mouse_button_pressed && inp.mouse1Released then
    ({ s with mouse_button_pressed := false },
     [ Event.render5 s.rx s.ry s.rz false,
       Event.unproject a.height inp.mouse_x inp.mouse_y ])
  else (s, [])

/-- Lines 243-245: advance the rotation angles. -/
def rotate (a : Args) (s : LoopState) : LoopState :=
  { s with
    rx := s.rx + a.model_rotate_x * s.delta_time
    ry := s.ry + a.model_rotate_y * s.delta_time
    rz := s.rz + a.model_rotate_z * s.delta_time }

/-- Lines 249-261: the per-frame render, and under `HAS_ZEROMQ` the publication
of a scan. -/
def renderAndPublish (zmq : Bool) (a : Args) (s : LoopState) (inp : FrameInput) :
    LoopState × List Event :=
  if zmq then
    if s.loopcount = toSizeT a.frequency ∧ 0 < a.port then
      let send_buffer_size := (inp.pointCount * sizeofFloat) % 2 ^ 64
      ({ s with loopcount := 0 },
       [ Event.render a.fov s.rx s.ry s.rz false,
         Event.write_point_cloud a.width a.height,
         Event.send .publisher send_buffer_size ])
    else (s, [Event.render a.fov s.rx s.ry s.rz false])
  else (s, [Event.render a.fov s.rx s.ry s.rz true])

/-- Lines 267-272: timers, the save-and-quit flag and the frame counter. -/
def endOfFrame (a : Args) (s : LoopState) (inp : FrameInput) : LoopState :=
  { s with
    last_time := s.current_time
    current_time := inp.time
    save_and_quit := decide (a.pcd_filename.length > 0)
    loopcount := (s.loopcount + 1) % 2 ^ 64 }

/-- One execution of the loop body, lines 188-273. -/
def frame (zmq : Bool) (a : Args) (s : LoopState) (inp : FrameInput) :
    LoopState × List Event :=
  let e1 := cameraKeys s inp
  let s1 := latchSKey s inp
  let (s2, e2) := capture a s1 inp
  let s3 := latchMouse s2 inp
  let (s4, e3) := click a s3 inp
  let s5 := rotate a s4
  let (s6, e4) := renderAndPublish zmq a s5 inp
  (endOfFrame a s6 inp, e1 ++ e2 ++ e3 ++ e4)

/-- The loop condition of line 274, evaluated after the body. -/
def continues (s : LoopState) (inp : FrameInput) : Bool :=
  !s.saved_now_quit && !inp.keyEscape && !inp.windowShouldClose

/-- One executed iteration: the state it started in, what it read, the calls
it made and the state it left. -/
structure FrameRecord where
  before : LoopState
  input : FrameInput
  events : List Event
  after : LoopState
  deriving DecidableEq

/-- The `do ... while` loop of lines 187-274, run on the inputs of the
successive iterations. The boolean tells whether the loop condition became
false; it is `false` when the supplied inputs end while the loop is running. -/
def loop (zmq : Bool) (a : Args) : LoopState → List FrameInput → List FrameRecord × Bool
  | _, [] => ([], false)
  | s, inp :: rest =>
    let r := frame zmq a s inp
    if continues r.1 inp then
      let rs := loop zmq a r.1 rest
      ({ before := s, input := inp, events := r.2, after := r.1 } :: rs.1, rs.2)
    else ([{ before := s, input := inp, events := r.2, after := r.1 }], true)

/-! ## The program -/

/-- How a run ends. -/
inductive Outcome
  /-- Undefined behaviour while reading the command line. -/
  | fault (f : Fault)
  /-- The function `main` returned `status`. -/
  | returned (status : Int)
  /-- The frame loop is still running after the supplied inputs. -/
  | running
  deriving DecidableEq

/-- A run of `main`. -/
structure Run where
  /-- The calls made before the frame loop. -/
  setup : List Event
  /-- The executed iterations of the frame loop. -/
  frames : List FrameRecord
  outcome : Outcome
  deriving DecidableEq

/-- All calls of a run, in program order. -/
def Run.trace (r : Run) : List Event :=
  r.setup ++ (r.frames.map FrameRecord.events).flatten

/-- The function `main`, lines 93-277. -/
def main (zmq : Bool) (w : World) (argv : List String) : Run :=
  match parseArgs w argv with
  | .error f => { setup := [], frames := [], outcome := .fault f }
  | .ok a =>
    let handshake := if zmq ∧ 0 < a.port then sync_publish a.port else []
    if !w.glfwInit then
      { setup := handshake, frames := [], outcome := .returned (-1) }
    else if !w.windowCreated then
      { setup := handshake, frames := [], outcome := .returned (-1) }
    else if !w.glewInit then
      { setup := handshake, frames := [], outcome := .returned (-1) }
    else
      let rs := loop zmq a (initialState w a) w.inputs
      { setup := handshake ++ [Event.projection_setup a.fov]
        frames := rs.1
        outcome := if rs.2 then .returned 0 else .running }

/-! ## Vocabulary of the statements -/

/-- Calls made on a ZeroMQ socket. -/
def Event.onSocket : Event → Bool
  | .bind _ _ => true
  | .recv _ => true
  | .send _ _ => true
  | _ => false

/-- Calls of `scene.save_point_cloud`. -/
def Event.isSavePointCloud : Event → Bool
  | .save_point_cloud _ _ _ => true
  | _ => false

/-- Calls of `scene.save_transformation_metadata`. -/
def Event.isSaveMetadata : Event → Bool
  | .save_transformation_metadata _ _ _ _ => true
  | _ => false

/-- Calls that extract a point cloud from the rendered buffer. -/
def Event.isExtraction : Event → Bool
  | .save_point_cloud _ _ _ => true
  | .write_point_cloud _ _ => true
  | _ => false

/-- Calls of the six-argument `scene.render` whose show-box flag is `false`. -/
def Event.isBoxlessRender : Event → Bool
  | .render _ _ _ _ false => true
  | _ => false

/-- Publication of a scan: a send on the publish socket. -/
def Event.isPublish : Event → Bool
  | .send .publisher _ => true
  | _ => false

/-- In `l`, every call satisfying `X` has a call right before it, and that call
satisfies `Y`. -/
def PrecededBy (X Y : Event → Prop) (l : List Event) : Prop :=
  ∀ pre x post, l = pre ++ x :: post → X x → ∃ pre1 y, pre = pre1 ++ [y] ∧ Y y

/-- Whether the rendering context was initialised: `glfwInit`, the window and
`glewInit` all succeeded. -/
def World.initOK (w : World) : Bool :=
  w.glfwInit && w.windowCreated && w.glewInit

/-! ## Sample runs -/

/-- A C library reading unsigned decimal numerals. -/
def decimal (s : String) : Nat :=
  s.data.foldl (fun n c => 10 * n + (c.toNat - 48)) 0

/-- A frame in which no key or button is touched; the timer reads `t`. -/
def quiet (t : ℚ) : FrameInput :=
  { keyMinus := false, keyEqual := false, keyS := false, keySReleased := false,
    mouse1 := false, mouse1Released := false, mouse_x := 0, mouse_y := 0,
    pointCount := 3, time := t, keyEscape := false, windowShouldClose := false }

/-- A frame at whose end the escape key is down. -/
def escape (t : ℚ) : FrameInput :=
  { quiet t with keyEscape := true }

/-- A world in which initialisation succeeds and the first timer reading is 1. -/
def sampleWorld (inputs : List FrameInput) : World :=
  { atoi := fun s => decimal s, atof := fun s => decimal s, glfwInit := true,
    windowCreated := true, glewInit := true, startTime := 1, inputs := inputs }

/-- A world in which `glfwInit` fails. -/
def brokenWorld (inputs : List FrameInput) : World :=
  { sampleWorld inputs with glfwInit := false }

/-- Streaming on port 5556 every second frame, rotating about x at rate 1. -/
def argvStream : List String :=
  ["glidar", "test.obj", "1", "1", "0", "0", "0", "0", "0", "1000", "256", "256", "20",
   "-p", "5556", "2"]

/-- Capture to `scan` and exit. -/
def argvFile : List String :=
  ["glidar", "test.obj", "1", "1", "0", "0", "0", "0", "0", "1000", "256", "256", "20",
   "-f", "scan"]

/-- The command line `argvFile` as `main` reads it. -/
def fileArgs : Args :=
  { model_filename := "test.obj", model_scale_factor := 1, model_rotate_x := 1,
    model_rotate_y := 0, model_rotate_z := 0, model_init_rotate_x := 0,
    model_init_rotate_y := 0, model_init_rotate_z := 0, camera_z := 1000, width := 256,
    height := 256, fov := 20, filename_or_port := "-f", pcd_filename := "scan", port := 0,
    frequency := 50 }

/-- The command line `argvStream` as `main` reads it. -/
def streamArgs : Args :=
  { fileArgs with filename_or_port := "-p", pcd_filename := "", port := 5556, frequency := 2 }

/-! ## Integer and string facts -/

theorem toInt32_of_range (x : Int) (hlo : -2 ^ 31 ≤ x) (hhi : x < 2 ^ 31) : toInt32 x = x := by
  unfold toInt32
  omega

theorem toInt32_range (x : Int) : -2 ^ 31 ≤ toInt32 x ∧ toInt32 x < 2 ^ 31 := by
  unfold toInt32
  omega

theorem toSizeT_of_range (x : Int) (hlo : 0 ≤ x) (hhi : x < 2 ^ 31) : (toSizeT x : Int) = x := by
  unfold toSizeT
  omega

theorem length_pos_of_ne_empty (s : String) (h : s ≠ "") : s.length > 0 := by
  rcases s with ⟨l⟩
  cases l with
  | nil => exact absurd rfl h
  | cons c t => simp [String.length]

/-! ## Command line -/

/-- C4: the arguments are not all optional. Started with no argument
(`argc = 1`), `main` takes the default selector `"-f"` and then uses `argv[14]`
as the output file name without testing `argc`: an index `≥ argc` is read. -/
theorem parseArgs_no_arguments (w : World) :
    parseArgs w ["glidar"] = .error (.argvOutOfRange 14) := by
  rfl

/-- What `parseArgs` returns, field by field. -/
theorem parseArgs_ok (w : World) (argv : List String) (a : Args)
    (h : parseArgs w argv = .ok a) :
    a.filename_or_port = argOr argv 13 id "-f" ∧
    a.frequency = argOr argv 15 (fun s => toInt32 (w.atoi s)) 50 ∧
    ∃ c, charAt1 a.filename_or_port = .ok c ∧
      (if c = 'f' then argvAt argv 14 else .ok "") = .ok a.pcd_filename ∧
      (if c = 'p' then (argvAt argv 14).map (fun s => toInt32 (w.atoi s)) else .ok 0)
        = .ok a.port := by
  unfold parseArgs at h
  simp only at h
  split at h
  · exact absurd h (by simp)
  · rename_i c hc
    split at h
    · exact absurd h (by simp)
    · rename_i f hf
      split at h
      · exact absurd h (by simp)
      · rename_i p hp
        injection h with h
        subst h
        exact ⟨rfl, rfl, c, hc, hf, hp⟩

theorem frequency_range (w : World) (argv : List String) (a : Args)
    (h : parseArgs w argv = .ok a) : -2 ^ 31 ≤ a.frequency ∧ a.frequency < 2 ^ 31 := by
  obtain ⟨-, hf, -⟩ := parseArgs_ok w argv a h
  rw [hf]
  unfold argOr
  split
  · exact toInt32_range _
  · omega

theorem port_pos_selector (w : World) (argv : List String) (a : Args)
    (h : parseArgs w argv = .ok a) (hp : a.port ≠ 0) : charAt1 a.filename_or_port = .ok 'p' := by
  obtain ⟨-, -, c, hc, -, hport⟩ := parseArgs_ok w argv a h
  by_cases hcp : c = 'p'
  · rw [hc, hcp]
  · rw [if_neg hcp] at hport
    injection hport with hport
    exact absurd hport.symm hp

theorem filename_selector (w : World) (argv : List String) (a : Args)
    (h : parseArgs w argv = .ok a) (hp : a.pcd_filename ≠ "") :
    charAt1 a.filename_or_port = .ok 'f' := by
  obtain ⟨-, -, c, hc, hfile, -⟩ := parseArgs_ok w argv a h
  by_cases hcf : c = 'f'
  · rw [hc, hcf]
  · rw [if_neg hcf] at hfile
    injection hfile with hfile
    exact absurd hfile.symm hp

/-! ## One frame -/

theorem latchSKey_eq (s : LoopState) (inp : FrameInput) :
    latchSKey s inp = { s with s_key_pressed := s.s_key_pressed || inp.keyS } := by
  unfold latchSKey
  cases s
  cases h : inp.keyS <;> simp

theorem latchMouse_eq (s : LoopState) (inp : FrameInput) :
    latchMouse s inp = { s with mouse_button_pressed := s.mouse_button_pressed || inp.mouse1 } := by
  unfold latchMouse
  cases s
  cases h : inp.mouse1 <;> simp

theorem capture_eq (a : Args) (s : LoopState) (inp : FrameInput) :
    capture a s inp =
      ({ s with
          s_key_pressed := s.s_key_pressed && !(s.save_and_quit || inp.keySReleased)
          saved_now_quit := s.saved_now_quit || s.save_and_quit },
       if s.save_and_quit || (s.s_key_pressed && inp.keySReleased) then
         [ Event.render a.fov s.rx s.ry s.rz false,
           Event.save_point_cloud (if s.save_and_quit then a.pcd_filename else "buffer")
             a.width a.height,
           Event.save_transformation_metadata
             (if s.save_and_quit then a.pcd_filename else "buffer") s.rx s.ry s.rz ]
       else []) := by
  unfold capture
  cases s
  rename_i lt ct dt rx ry rz mb sk sq snq lc
  cases sq <;> cases sk <;> cases inp.keySReleased <;> simp

theorem click_eq (a : Args) (s : LoopState) (inp : FrameInput) :
    click a s inp =
      ({ s with mouse_button_pressed := s.mouse_button_pressed && !inp.mouse1Released },
       if s.mouse_button_pressed && inp.mouse1Released then
         [ Event.render5 s.rx s.ry s.rz false,
           Event.unproject a.height inp.mouse_x inp.mouse_y ]
       else []) := by
  unfold click
  cases s
  rename_i lt ct dt rx ry rz mb sk sq snq lc
  cases mb <;> cases inp.mouse1Released <;> simp

theorem frame_fst (zmq : Bool) (a : Args) (s : LoopState) (inp : FrameInput) :
    (frame zmq a s inp).1 =
      { last_time := s.current_time
        current_time := inp.time
        delta_time := s.delta_time
        rx := s.rx + a.model_rotate_x * s.delta_time
        ry := s.ry + a.model_rotate_y * s.delta_time
        rz := s.rz + a.model_rotate_z * s.delta_time
        mouse_button_pressed := (s.mouse_button_pressed || inp.mouse1) && !inp.mouse1Released
        s_key_pressed := (s.s_key_pressed || inp.keyS) && !(s.save_and_quit || inp.keySReleased)
        save_and_quit := decide (a.pcd_filename.length > 0)
        saved_now_quit := s.saved_now_quit || s.save_and_quit
        loopcount :=
          ((if zmq = true ∧ s.loopcount = toSizeT a.frequency ∧ 0 < a.port then 0
            else s.loopcount) + 1) % 2 ^ 64 } := by
  simp only [frame, latchSKey_eq, capture_eq, latchMouse_eq, click_eq, rotate, renderAndPublish,
    endOfFrame]
  cases zmq
  · simp
  · by_cases h : s.loopcount = toSizeT a.frequency ∧ 0 < a.port
    · simp [h]
    · simp [h]

theorem frame_snd (zmq : Bool) (a : Args) (s : LoopState) (inp : FrameInput) :
    (frame zmq a s inp).2 =
      cameraKeys s inp ++
      (if s.save_and_quit || ((s.s_key_pressed || inp.keyS) && inp.keySReleased) then
         [ Event.render a.fov s.rx s.ry s.rz false,
           Event.save_point_cloud (if s.save_and_quit then a.pcd_filename else "buffer")
             a.width a.height,
           Event.save_transformation_metadata
             (if s.save_and_quit then a.pcd_filename else "buffer") s.rx s.ry s.rz ]
       else []) ++
      (if (s.mouse_button_pressed || inp.mouse1) && inp.mouse1Released then
         [ Event.render5 s.rx s.ry s.rz false,
           Event.unproject a.height inp.mouse_x inp.mouse_y ]
       else []) ++
      (if zmq then
         if s.loopcount = toSizeT a.frequency ∧ 0 < a.port then
           [ Event.render a.fov (s.rx + a.model_rotate_x * s.delta_time)
               (s.ry + a.model_rotate_y * s.delta_time)
               (s.rz + a.model_rotate_z * s.delta_time) false,
             Event.write_point_cloud a.width a.height,
             Event.send .publisher ((inp.pointCount * sizeofFloat) % 2 ^ 64) ]
         else
           [ Event.render a.fov (s.rx + a.model_rotate_x * s.delta_time)
               (s.ry + a.model_rotate_y * s.delta_time)
               (s.rz + a.model_rotate_z * s.delta_time) false ]
       else
         [ Event.render a.fov (s.rx + a.model_rotate_x * s.delta_time)
             (s.ry + a.model_rotate_y * s.delta_time)
             (s.rz + a.model_rotate_z * s.delta_time) true ]) := by
  simp only [frame, latchSKey_eq, capture_eq, latchMouse_eq, click_eq, rotate, renderAndPublish,
    endOfFrame]
  cases zmq
  · simp
  · by_cases h : s.loopcount = toSizeT a.frequency ∧ 0 < a.port
    · simp [h]
    · simp [h]

/-! ## The loop -/

/-- The run of `main` once the command line is read. -/
theorem main_ok (zmq : Bool) (w : World) (argv : List String) (a : Args)
    (h : parseArgs w argv = .ok a) :
    main zmq w argv =
      if w.initOK then
        { setup := (if zmq ∧ 0 < a.port then sync_publish a.port else []) ++
            [Event.projection_setup a.fov]
          frames := (loop zmq a (initialState w a) w.inputs).1
          outcome := if (loop zmq a (initialState w a) w.inputs).2 then .returned 0
            else .running }
      else
        { setup := if zmq ∧ 0 < a.port then sync_publish a.port else []
          frames := []
          outcome := .returned (-1) } := by
  unfold main World.initOK
  rw [h]
  cases w.glfwInit <;> cases w.windowCreated <;> cases w.glewInit <;> simp

theorem main_fault (zmq : Bool) (w : World) (argv : List String) (f : Fault)
    (h : parseArgs w argv = .error f) :
    main zmq w argv = { setup := [], frames := [], outcome := .fault f } := by
  unfold main
  rw [h]

theorem loop_cons (zmq : Bool) (a : Args) (s : LoopState) (inp : FrameInput)
    (rest : List FrameInput) :
    loop zmq a s (inp :: rest) =
      if continues (frame zmq a s inp).1 inp then
        ({ before := s, input := inp, events := (frame zmq a s inp).2,
           after := (frame zmq a s inp).1 } :: (loop zmq a (frame zmq a s inp).1 rest).1,
         (loop zmq a (frame zmq a s inp).1 rest).2)
      else
        ([{ before := s, input := inp, events := (frame zmq a s inp).2,
            after := (frame zmq a s inp).1 }], true) := rfl

/-- Every executed iteration is one application of `frame` to the next input,
and a property of the loop state that `frame` carries from one iteration index
to the next holds at the start of every iteration. -/
theorem loop_invariant (zmq : Bool) (a : Args) (P : Nat → LoopState → Prop)
    (hstep : ∀ k s inp, P k s → P (k + 1) (frame zmq a s inp).1) :
    ∀ (inps : List FrameInput) (s : LoopState) (k : Nat), P k s →
      ∀ (i : Nat) (r : FrameRecord), (loop zmq a s inps).1.get? i = some r →
        P (k + i) r.before ∧ inps.get? i = some r.input ∧
        r.events = (frame zmq a r.before r.input).2 ∧
        r.after = (frame zmq a r.before r.input).1 := by
  intro inps
  induction inps with
  | nil =>
    intro s k _ i r h
    simp [loop] at h
  | cons inp rest ih =>
    intro s k hP i r h
    rw [loop_cons] at h
    cases i with
    | zero =>
      have hr : r = { before := s, input := inp, events := (frame zmq a s inp).2,
                      after := (frame zmq a s inp).1 } := by
        split at h <;> simp at h <;> exact h.symm
      subst hr
      exact ⟨hP, rfl, rfl, rfl⟩
    | succ j =>
      split at h
      · simp only [List.get?_cons_succ] at h
        have := ih (frame zmq a s inp).1 (k + 1) (hstep k s inp hP) j r h
        simpa [Nat.add_assoc, Nat.add_comm 1 j] using this
      · simp at h

theorem loop_records (zmq : Bool) (a : Args) (inps : List FrameInput) (s : LoopState)
    (r : FrameRecord) (h : r ∈ (loop zmq a s inps).1) :
    r.events = (frame zmq a r.before r.input).2 ∧
    r.after = (frame zmq a r.before r.input).1 := by
  obtain ⟨i, hi⟩ := List.mem_iff_get?.1 h
  exact (loop_invariant zmq a (fun _ _ => True) (fun _ _ _ _ => trivial) inps s 0 trivial i r hi).2.2

/-- The loop ends when some supplied frame carries a quit key or a close
request. -/
theorem loop_ends_of_quit (zmq : Bool) (a : Args) :
    ∀ (inps : List FrameInput) (s : LoopState),
      (∃ inp ∈ inps, inp.keyEscape = true ∨ inp.windowShouldClose = true) →
      (loop zmq a s inps).2 = true := by
  intro inps
  induction inps with
  | nil => intro s h; simp at h
  | cons inp rest ih =>
    intro s h
    rw [loop_cons]
    split
    · rename_i hc
      apply ih
      obtain ⟨x, hx, hq⟩ := h
      rcases List.mem_cons.1 hx with rfl | hx
      · simp [continues] at hc
        rcases hq with hq | hq <;> simp [hq] at hc
      · exact ⟨x, hx, hq⟩
    · rfl

/-! ## Rendezvous -/

/-- C7, as amended: for every `int` port `p` below `INT_MAX`, `sync_publish`
binds the publish socket to `tcp://*:p` and the synchronisation socket to
`tcp://*:(p+1)`, then receives one request on the synchronisation socket, then
sends one reply on it, of zero bytes; these four calls are all it does, so it
sends nothing on the publish socket. -/
theorem sync_publish_endpoints (p : Int) (hlo : -2 ^ 31 ≤ p) (hhi : p < 2 ^ 31 - 1) :
    sync_publish p =
      [ Event.bind .publisher ("tcp://*:" ++ toString p),
        Event.bind .sync_service ("tcp://*:" ++ toString (p + 1)),
        Event.recv .sync_service,
        Event.send .sync_service 0 ] := by
  unfold sync_publish
  rw [toInt32_of_range (p + 1) (by omega) (by omega)]

/-- Witness of `sync_publish_endpoints` at port 5556. -/
theorem sync_publish_endpoints_witness :
    ((-2 ^ 31 : Int) ≤ 5556 ∧ (5556 : Int) < 2 ^ 31 - 1) ∧
    sync_publish 5556 =
      [ Event.bind .publisher "tcp://*:5556",
        Event.bind .sync_service "tcp://*:5557",
        Event.recv .sync_service,
        Event.send .sync_service 0 ] :=
  ⟨by decide, sync_publish_endpoints 5556 (by decide) (by decide)⟩

/-- C7 as stated fails at `p = INT_MAX`: the sum `port+1` is computed in `int`
and the synchronisation socket is not bound to `tcp://*:2147483648`. -/
theorem sync_publish_int_max :
    sync_publish 2147483647 ≠
      [ Event.bind .publisher ("tcp://*:" ++ toString (2147483647 : Int)),
        Event.bind .sync_service ("tcp://*:" ++ toString ((2147483647 : Int) + 1)),
        Event.recv .sync_service,
        Event.send .sync_service 0 ] := by
  decide

/-! ## Handshake gating -/

/-- A frame touches a socket only to publish, and only when streaming is
compiled in, the port is positive and the frame counter equals the frequency. -/
theorem frame_onSocket (zmq : Bool) (a : Args) (s : LoopState) (inp : FrameInput) (e : Event)
    (he : e ∈ (frame zmq a s inp).2) (h : e.onSocket = true) :
    zmq = true ∧ 0 < a.port ∧ s.loopcount = toSizeT a.frequency ∧
      e = Event.send .publisher ((inp.pointCount * sizeofFloat) % 2 ^ 64) := by
  rw [frame_snd] at he
  simp only [List.mem_append, cameraKeys] at he
  rcases he with ((he | he) | he) | he
  · rcases he with he | he <;> split at he <;> simp at he <;> subst he <;>
      simp [Event.onSocket] at h
  · split at he
    · simp at he
      rcases he with rfl | rfl | rfl <;> simp [Event.onSocket] at h
    · simp at he
  · split at he
    · simp at he
      rcases he with rfl | rfl <;> simp [Event.onSocket] at h
    · simp at he
  · cases zmq
    · simp at he
      subst he
      simp [Event.onSocket] at h
    · simp only [if_true] at he
      split at he
      · rename_i hc
        simp at he
        rcases he with rfl | rfl | rfl
        · simp [Event.onSocket] at h
        · simp [Event.onSocket] at h
        · exact ⟨rfl, hc.2, hc.1, rfl⟩
      · simp at he
        subst he
        simp [Event.onSocket] at h

/-- The trace of a run whose command line was read: the handshake, present
exactly in the streaming build with a positive port, then calls that touch a
socket only to publish, which needs a positive port. -/
theorem trace_ok (zmq : Bool) (w : World) (argv : List String) (a : Args)
    (h : parseArgs w argv = .ok a) :
    ∃ T, (main zmq w argv).trace = (if zmq ∧ 0 < a.port then sync_publish a.port else []) ++ T ∧
      ∀ e ∈ T, e.onSocket = true → zmq = true ∧ 0 < a.port ∧ e.isPublish = true := by
  rw [main_ok zmq w argv a h]
  cases w.initOK
  · refine ⟨[], ?_, ?_⟩
    · simp [Run.trace]
    · intro e he
      simp at he
  · refine ⟨Event.projection_setup a.fov ::
      ((loop zmq a (initialState w a) w.inputs).1.map FrameRecord.events).flatten, ?_, ?_⟩
    · simp [Run.trace]
    · intro e he hs
      rcases List.mem_cons.1 he with rfl | he
      · simp [Event.onSocket] at hs
      · obtain ⟨l, hl, hel⟩ := List.mem_flatten.1 he
        obtain ⟨r, hr, rfl⟩ := List.mem_map.1 hl
        rw [(loop_records zmq a _ _ r hr).1] at hel
        obtain ⟨h1, h2, -, h4⟩ := frame_onSocket zmq a _ _ e hel hs
        exact ⟨h1, h2, by rw [h4]; rfl⟩

/-- C1 (handshake gating): in every run of the streaming build, whatever the
arguments and the loop inputs, each send on the publish socket comes after the
receive and then the empty reply on the synchronisation socket; and when the
parsed port is not positive the run makes no call on any socket. -/
theorem handshake_gating (w : World) (argv : List String) :
    (∀ pre post n, (main true w argv).trace = pre ++ Event.send .publisher n :: post →
      ∃ p1 p2 p3, pre = p1 ++ Event.recv .sync_service :: p2 ++
        Event.send .sync_service 0 :: p3) ∧
    (∀ a, parseArgs w argv = .ok a → a.port ≤ 0 →
      ∀ e ∈ (main true w argv).trace, e.onSocket = false) := by
  cases hp : parseArgs w argv with
  | error f =>
    rw [main_fault true w argv f hp]
    constructor
    · intro pre post n h
      simp [Run.trace] at h
    · intro a ha
      exact absurd ha (by simp)
  | ok a =>
    obtain ⟨T, hT, hsock⟩ := trace_ok true w argv a hp
    rw [hT]
    constructor
    · intro pre post n h
      by_cases hport : 0 < a.port
      · simp only [hport, and_self, if_true, sync_publish] at h
        rcases pre with _ | ⟨e1, _ | ⟨e2, _ | ⟨e3, _ | ⟨e4, pre⟩⟩⟩⟩ <;> simp at h
        obtain ⟨-, -, h3, h4, -⟩ := h
        exact ⟨[e1, e2], [], pre, by simp [h3, h4]⟩
      · simp only [hport, and_false, if_false, List.nil_append] at h
        have hmem : Event.send .publisher n ∈ T := by rw [h]; simp
        exact absurd (hsock _ hmem rfl).2.1 hport
    · intro a1 ha1 hport e he
      injection ha1 with ha1
      subst ha1
      have hport1 : ¬ 0 < a.port := by omega
      simp only [hport1, and_false, if_false, List.nil_append] at he
      cases hs : e.onSocket
      · rfl
      · exact absurd (hsock e he hs).2.1 hport1

/-- Witness of `handshake_gating`: a streaming run on port 5556 at frequency 2
publishes in its third frame, after the handshake. -/
theorem handshake_gating_witness :
    (main true (sampleWorld [quiet 3, quiet 7, quiet 8]) argvStream).trace.filter
        (fun e => e.onSocket) =
      [ Event.bind .publisher "tcp://*:5556", Event.bind .sync_service "tcp://*:5557",
        Event.recv .sync_service, Event.send .sync_service 0, Event.send .publisher 12 ] ∧
    ∃ p1 p2 p3,
      [ Event.bind .publisher "tcp://*:5556", Event.bind .sync_service "tcp://*:5557",
        Event.recv .sync_service, Event.send .sync_service 0,
        Event.projection_setup 20, Event.render 20 1 0 0 false, Event.render 20 2 0 0 false,
        Event.render 20 3 0 0 false, Event.write_point_cloud 256 256 ] =
      p1 ++ Event.recv .sync_service :: p2 ++ Event.send .sync_service 0 :: p3 :=
  ⟨by decide!,
   (handshake_gating (sampleWorld [quiet 3, quiet 7, quiet 8]) argvStream).1 _ [] 12 (by decide!)⟩

/-! ## Captures -/

/-- A save call made in a frame comes from the capture block of lines 203-217:
the condition of line 203 held, and the file name is `pcd_filename` under
save-and-quit and `"buffer"` otherwise. -/
theorem frame_save_events (zmq : Bool) (a : Args) (s : LoopState) (inp : FrameInput) (e : Event)
    (he : e ∈ (frame zmq a s inp).2)
    (h : e.isSavePointCloud = true ∨ e.isSaveMetadata = true) :
    (s.save_and_quit || ((s.s_key_pressed || inp.keyS) && inp.keySReleased)) = true ∧
    (e = Event.save_point_cloud (if s.save_and_quit then a.pcd_filename else "buffer")
          a.width a.height ∨
     e = Event.save_transformation_metadata
          (if s.save_and_quit then a.pcd_filename else "buffer") s.rx s.ry s.rz) := by
  rw [frame_snd] at he
  simp only [List.mem_append, cameraKeys] at he
  rcases he with ((he | he) | he) | he
  · rcases he with he | he <;> split at he <;> simp at he <;> subst he <;>
      simp [Event.isSavePointCloud, Event.isSaveMetadata] at h
  · split at he
    · rename_i hc
      simp only [List.mem_cons, List.mem_singleton, List.not_mem_nil, or_false] at he
      rcases he with rfl | rfl | rfl
      · simp [Event.isSavePointCloud, Event.isSaveMetadata] at h
      · exact ⟨hc, Or.inl rfl⟩
      · exact ⟨hc, Or.inr rfl⟩
    · simp at he
  · split at he
    · simp at he
      rcases he with rfl | rfl <;> simp [Event.isSavePointCloud, Event.isSaveMetadata] at h
    · simp at he
  · cases zmq
    · simp at he
      subst he
      simp [Event.isSavePointCloud, Event.isSaveMetadata] at h
    · simp only [if_true] at he
      split at he
      · simp at he
        rcases he with rfl | rfl | rfl <;>
          simp [Event.isSavePointCloud, Event.isSaveMetadata] at h
      · simp at he
        subst he
        simp [Event.isSavePointCloud, Event.isSaveMetadata] at h

theorem frame_filter_save (zmq : Bool) (a : Args) (s : LoopState) (inp : FrameInput) :
    (frame zmq a s inp).2.filter Event.isSavePointCloud =
      (if s.save_and_quit || ((s.s_key_pressed || inp.keyS) && inp.keySReleased) then
        [Event.save_point_cloud (if s.save_and_quit then a.pcd_filename else "buffer")
          a.width a.height]
      else []) ∧
    (frame zmq a s inp).2.filter Event.isSaveMetadata =
      (if s.save_and_quit || ((s.s_key_pressed || inp.keyS) && inp.keySReleased) then
        [Event.save_transformation_metadata
          (if s.save_and_quit then a.pcd_filename else "buffer") s.rx s.ry s.rz]
      else []) := by
  rw [frame_snd]
  simp only [List.filter_append, cameraKeys]
  constructor <;> split_ifs <;> simp [Event.isSavePointCloud, Event.isSaveMetadata]

/-- Without an output file name the save-and-quit flags stay clear. -/
theorem no_save_and_quit (zmq : Bool) (a : Args) (hname : a.pcd_filename = "")
    (inps : List FrameInput) (s : LoopState)
    (hs : s.save_and_quit = false ∧ s.saved_now_quit = false)
    (r : FrameRecord) (hr : r ∈ (loop zmq a s inps).1) :
    r.before.save_and_quit = false ∧ r.before.saved_now_quit = false ∧
    r.after.saved_now_quit = false := by
  obtain ⟨i, hi⟩ := List.mem_iff_get?.1 hr
  have step : ∀ (k : Nat) (s : LoopState) (inp : FrameInput),
      (s.save_and_quit = false ∧ s.saved_now_quit = false) →
      ((frame zmq a s inp).1.save_and_quit = false ∧
        (frame zmq a s inp).1.saved_now_quit = false) := by
    intro _ s inp h
    rw [frame_fst]
    simp [h.1, h.2, hname]
  obtain ⟨hb, -, -, ha⟩ :=
    loop_invariant zmq a (fun _ s => s.save_and_quit = false ∧ s.saved_now_quit = false)
      step inps s 0 hs i r hi
  refine ⟨hb.1, hb.2, ?_⟩
  rw [ha]
  exact (step 0 r.before r.input hb).2

/-- C9 (file mode ignores streaming): when the selector is `"-f"` the parsed
port is 0 and the run makes no call on any socket, in either build and
whatever the frequency; when the selector is `"-p"` the output file name is
empty, no iteration runs with the save-and-quit flag set and every file that
is written is the interactive `"buffer"`; a non-empty output file name and a
positive port never hold together. -/
theorem file_mode_ignores_streaming (w : World) (argv : List String) (a : Args)
    (h : parseArgs w argv = .ok a) :
    (a.filename_or_port = "-f" →
      a.port = 0 ∧ ∀ zmq, ∀ e ∈ (main zmq w argv).trace, e.onSocket = false) ∧
    (a.filename_or_port = "-p" →
      a.pcd_filename = "" ∧
      ∀ zmq, ∀ r ∈ (main zmq w argv).frames,
        r.before.save_and_quit = false ∧ r.after.saved_now_quit = false ∧
        (∀ name wd ht, Event.save_point_cloud name wd ht ∈ r.events → name = "buffer") ∧
        (∀ name x y z, Event.save_transformation_metadata name x y z ∈ r.events →
          name = "buffer")) ∧
    ¬ (a.pcd_filename ≠ "" ∧ 0 < a.port) := by
  refine ⟨?_, ?_, ?_⟩
  · intro hsel
    have hport : a.port = 0 := by
      by_contra hne
      have := port_pos_selector w argv a h hne
      rw [hsel] at this
      simp [charAt1] at this
    refine ⟨hport, ?_⟩
    intro zmq e he
    obtain ⟨T, hT, hsock⟩ := trace_ok zmq w argv a h
    rw [hT] at he
    simp only [hport, lt_self_iff_false, and_false, if_false, List.nil_append] at he
    cases hs : e.onSocket
    · rfl
    · have := (hsock e he hs).2.1
      omega
  · intro hsel
    have hname : a.pcd_filename = "" := by
      by_contra hne
      have := filename_selector w argv a h hne
      rw [hsel] at this
      simp [charAt1] at this
    refine ⟨hname, ?_⟩
    intro zmq r hr
    rw [main_ok zmq w argv a h] at hr
    cases hinit : w.initOK
    · simp [hinit] at hr
    · simp only [hinit, if_true] at hr
      obtain ⟨h1, h2, h3⟩ := no_save_and_quit zmq a hname _ _ ⟨rfl, rfl⟩ r hr
      have hev := (loop_records zmq a _ _ r hr).1
      refine ⟨h1, h3, ?_, ?_⟩
      · intro name wd ht hmem
        rw [hev] at hmem
        rcases (frame_save_events zmq a _ _ _ hmem (Or.inl rfl)).2 with he | he
        · injection he with he
          rw [he, h1]
          simp
        · exact absurd he (by simp)
      · intro name x y z hmem
        rw [hev] at hmem
        rcases (frame_save_events zmq a _ _ _ hmem (Or.inr rfl)).2 with he | he
        · exact absurd he (by simp)
        · injection he with he
          rw [he, h1]
          simp
  · rintro ⟨hname, hport⟩
    have h1 := filename_selector w argv a h hname
    have h2 := port_pos_selector w argv a h (by omega)
    rw [h1] at h2
    simp at h2

/-- Witness of `file_mode_ignores_streaming`: the file-mode command line
`argvFile` is read with the file name `scan` and port 0. -/
theorem file_mode_ignores_streaming_witness :
    parseArgs (sampleWorld [quiet 3, quiet 7]) argvFile = .ok fileArgs ∧ fileArgs.port = 0 ∧
    ¬ (fileArgs.pcd_filename ≠ "" ∧ 0 < fileArgs.port) :=
  ⟨by decide!,
   ((file_mode_ignores_streaming (sampleWorld [quiet 3, quiet 7]) argvFile fileArgs
      (by decide!)).1 (by decide)).1,
   (file_mode_ignores_streaming (sampleWorld [quiet 3, quiet 7]) argvFile fileArgs
      (by decide!)).2.2⟩

/-! ## Exit status -/

/-- C8 (exit status): once the command line is read, `main` returns the
non-zero status -1 without entering the frame loop when `glfwInit`, the window
creation or `glewInit` fails; a status it returns is non-zero exactly in that
case; and when initialisation succeeds and the loop ends, in particular when a
quit key or a close request arrives, it returns 0. -/
theorem exit_status (zmq : Bool) (w : World) (argv : List String) (a : Args)
    (h : parseArgs w argv = .ok a) :
    (w.initOK = false →
      (main zmq w argv).outcome = .returned (-1) ∧ (main zmq w argv).frames = []) ∧
    (∀ status, (main zmq w argv).outcome = .returned status →
      (status ≠ 0 ↔ w.initOK = false)) ∧
    (w.initOK = true → (main zmq w argv).outcome ≠ .running →
      (main zmq w argv).outcome = .returned 0) ∧
    (w.initOK = true →
      (∃ inp ∈ w.inputs, inp.keyEscape = true ∨ inp.windowShouldClose = true) →
      (main zmq w argv).outcome = .returned 0) := by
  rw [main_ok zmq w argv a h]
  cases hinit : w.initOK
  · simp
  · simp only [if_true]
    refine ⟨by simp, ?_, ?_, ?_⟩
    · intro status hs
      cases hl : (loop zmq a (initialState w a) w.inputs).2
      · simp [hl] at hs
      · simp [hl] at hs
        simp [← hs]
    · intro _ hrun
      cases hl : (loop zmq a (initialState w a) w.inputs).2
      · simp [hl] at hrun
      · simp
    · intro _ hq
      simp [loop_ends_of_quit zmq a w.inputs (initialState w a) hq]

/-- Witness of `exit_status`: with `glfwInit` failing the run returns -1 and
executes no frame; with initialisation succeeding and the escape key down at
the end of the second frame the run returns 0. -/
theorem exit_status_witness :
    parseArgs (brokenWorld [quiet 3]) argvStream = .ok streamArgs ∧
    ((main false (brokenWorld [quiet 3]) argvStream).outcome = .returned (-1) ∧
      (main false (brokenWorld [quiet 3]) argvStream).frames = []) ∧
    (main true (sampleWorld [quiet 3, escape 7]) argvStream).outcome = .returned 0 :=
  ⟨by decide!,
   (exit_status false (brokenWorld [quiet 3]) argvStream streamArgs (by decide!)).1 (by decide),
   (exit_status true (sampleWorld [quiet 3, escape 7]) argvStream streamArgs
      (by decide!)).2.2.2 (by decide) (by decide)⟩

/-! ## Capture and exit -/

theorem frame_saved_now_quit (zmq : Bool) (a : Args) (s : LoopState) (inp : FrameInput) :
    (frame zmq a s inp).1.saved_now_quit = (s.saved_now_quit || s.save_and_quit) := by
  rw [frame_fst]

theorem frame_save_and_quit (zmq : Bool) (a : Args) (s : LoopState) (inp : FrameInput) :
    (frame zmq a s inp).1.save_and_quit = decide (a.pcd_filename.length > 0) := by
  rw [frame_fst]

theorem setup_filter_save (zmq : Bool) (a : Args) :
    ((if zmq = true ∧ 0 < a.port then sync_publish a.port else []) ++
      [Event.projection_setup a.fov]).filter Event.isSavePointCloud = [] ∧
    ((if zmq = true ∧ 0 < a.port then sync_publish a.port else []) ++
      [Event.projection_setup a.fov]).filter Event.isSaveMetadata = [] := by
  constructor <;> split_ifs <;>
    simp [sync_publish, Event.isSavePointCloud, Event.isSaveMetadata]

/-- C3, as amended (capture and exit): in a run started with a non-empty output
file name in which the rendering context is initialised, the S key is never
down and neither the escape key nor a close request occurs, exactly two
iterations run; the whole run calls `save_point_cloud` once and
`save_transformation_metadata` once, both with the given file name and both in
the second iteration, and the loop ends with that iteration: `main` returns
0. -/
theorem capture_and_exit (zmq : Bool) (w : World) (argv : List String) (a : Args)
    (h : parseArgs w argv = .ok a) (hinit : w.initOK = true) (hname : a.pcd_filename ≠ "")
    (hlen : 2 ≤ w.inputs.length)
    (hquiet : ∀ inp ∈ w.inputs,
      inp.keyS = false ∧ inp.keyEscape = false ∧ inp.windowShouldClose = false) :
    (main zmq w argv).outcome = .returned 0 ∧
    ∃ f0 f1, (main zmq w argv).frames = [f0, f1] ∧
      (main zmq w argv).trace.filter Event.isSavePointCloud =
        [Event.save_point_cloud a.pcd_filename a.width a.height] ∧
      (main zmq w argv).trace.filter Event.isSaveMetadata =
        [Event.save_transformation_metadata a.pcd_filename
          f1.before.rx f1.before.ry f1.before.rz] ∧
      Event.save_point_cloud a.pcd_filename a.width a.height ∈ f1.events ∧
      Event.save_transformation_metadata a.pcd_filename
          f1.before.rx f1.before.ry f1.before.rz ∈ f1.events := by
  obtain ⟨i0, i1, rest, hin⟩ : ∃ i0 i1 rest, w.inputs = i0 :: i1 :: rest := by
    rcases hw : w.inputs with _ | ⟨i0, _ | ⟨i1, rest⟩⟩
    · rw [hw] at hlen; simp at hlen
    · rw [hw] at hlen; simp at hlen
    · exact ⟨i0, i1, rest, rfl⟩
  have hq0 := hquiet i0 (by rw [hin]; simp)
  have hq1 := hquiet i1 (by rw [hin]; simp)
  have hpos : decide (a.pcd_filename.length > 0) = true :=
    decide_eq_true (length_pos_of_ne_empty _ hname)
  have hc0 : continues (frame zmq a (initialState w a) i0).1 i0 = true := by
    simp [continues, frame_saved_now_quit, initialState, hq0]
  have hs1 : (frame zmq a (initialState w a) i0).1.save_and_quit = true := by
    rw [frame_save_and_quit, hpos]
  have hc1 : continues (frame zmq a (frame zmq a (initialState w a) i0).1 i1).1 i1 = false := by
    simp [continues, frame_saved_now_quit, hs1]
  have hf0 := frame_filter_save zmq a (initialState w a) i0
  have hf1 := frame_filter_save zmq a (frame zmq a (initialState w a) i0).1 i1
  simp only [hs1, Bool.true_or, if_true] at hf1
  have hinit0 : ((initialState w a).save_and_quit ||
      (((initialState w a).s_key_pressed || i0.keyS) && i0.keySReleased)) = false := by
    simp [initialState, hq0]
  simp only [hinit0, Bool.false_eq_true, if_false] at hf0
  have hsetup := setup_filter_save zmq a
  rw [main_ok zmq w argv a h]
  simp only [hinit, if_true, hin, loop_cons, hc0, hc1, Bool.false_eq_true, if_false]
  refine ⟨trivial, _, _, rfl, ?_, ?_, ?_, ?_⟩
  · simp only [Run.trace, List.map_cons, List.map_nil, List.flatten_cons, List.flatten_nil,
      List.filter_append, List.append_nil, hsetup.1, hf0.1, hf1.1, List.nil_append]
  · simp only [Run.trace, List.map_cons, List.map_nil, List.flatten_cons, List.flatten_nil,
      List.filter_append, List.append_nil, hsetup.2, hf0.2, hf1.2, List.nil_append]
  · have : Event.save_point_cloud a.pcd_filename a.width a.height ∈
        (frame zmq a (frame zmq a (initialState w a) i0).1 i1).2.filter
          Event.isSavePointCloud := by rw [hf1.1]; simp
    exact (List.mem_filter.1 this).1
  · have : Event.save_transformation_metadata a.pcd_filename
        (frame zmq a (initialState w a) i0).1.rx (frame zmq a (initialState w a) i0).1.ry
        (frame zmq a (initialState w a) i0).1.rz ∈
        (frame zmq a (frame zmq a (initialState w a) i0).1 i1).2.filter
          Event.isSaveMetadata := by rw [hf1.2]; simp
    exact (List.mem_filter.1 this).1

/-- Witness of `capture_and_exit`: the file-mode command line `argvFile` with
three quiet frames on offer runs two of them and writes `scan` once. -/
theorem capture_and_exit_witness :
    (main false (sampleWorld [quiet 3, quiet 7, quiet 8]) argvFile).outcome = .returned 0 ∧
    ∃ f0 f1, (main false (sampleWorld [quiet 3, quiet 7, quiet 8]) argvFile).frames = [f0, f1] ∧
      (main false (sampleWorld [quiet 3, quiet 7, quiet 8]) argvFile).trace.filter
        Event.isSavePointCloud = [Event.save_point_cloud "scan" 256 256] ∧
      (main false (sampleWorld [quiet 3, quiet 7, quiet 8]) argvFile).trace.filter
        Event.isSaveMetadata =
        [Event.save_transformation_metadata "scan" f1.before.rx f1.before.ry f1.before.rz] ∧
      Event.save_point_cloud "scan" 256 256 ∈ f1.events ∧
      Event.save_transformation_metadata "scan" f1.before.rx f1.before.ry f1.before.rz
        ∈ f1.events :=
  capture_and_exit false (sampleWorld [quiet 3, quiet 7, quiet 8]) argvFile fileArgs
    (by decide!) (by decide) (by decide) (by decide) (by decide)

/-- C3 as stated fails when the rendering context cannot be initialised: with
the output file name `scan`, the S key never down and no quit or close event,
but `glfwInit` failing, `main` returns -1 before the frame loop and no file is
written. -/
theorem capture_needs_initialisation :
    parseArgs (brokenWorld [quiet 3, quiet 7, quiet 8]) argvFile = .ok fileArgs ∧
    fileArgs.pcd_filename ≠ "" ∧
    (∀ inp ∈ (brokenWorld [quiet 3, quiet 7, quiet 8]).inputs,
      inp.keyS = false ∧ inp.keyEscape = false ∧ inp.windowShouldClose = false) ∧
    (main false (brokenWorld [quiet 3, quiet 7, quiet 8]) argvFile).outcome = .returned (-1) ∧
    (main false (brokenWorld [quiet 3, quiet 7, quiet 8]) argvFile).frames = [] ∧
    (main false (brokenWorld [quiet 3, quiet 7, quiet 8]) argvFile).trace.filter
      Event.isSavePointCloud = [] ∧
    (main false (brokenWorld [quiet 3, quiet 7, quiet 8]) argvFile).trace.filter
      Event.isSaveMetadata = [] := by
  decide!

/-! ## Streaming cadence -/

theorem onSocket_of_isPublish (e : Event) (h : e.isPublish = true) : e.onSocket = true := by
  cases e <;> first | rfl | simp [Event.isPublish] at h

/-- A frame of the streaming build publishes exactly when the frame counter
equals the frequency and the port is positive. -/
theorem frame_publish_iff (a : Args) (s : LoopState) (inp : FrameInput) :
    (∃ e ∈ (frame true a s inp).2, e.isPublish = true) ↔
      (s.loopcount = toSizeT a.frequency ∧ 0 < a.port) := by
  constructor
  · rintro ⟨e, he, hp⟩
    obtain ⟨-, h2, h3, -⟩ := frame_onSocket true a s inp e he (onSocket_of_isPublish e hp)
    exact ⟨h3, h2⟩
  · intro hc
    refine ⟨Event.send .publisher ((inp.pointCount * sizeofFloat) % 2 ^ 64), ?_, rfl⟩
    rw [frame_snd]
    simp [hc]

theorem frame_loopcount (zmq : Bool) (a : Args) (s : LoopState) (inp : FrameInput) :
    (frame zmq a s inp).1.loopcount =
      ((if zmq = true ∧ s.loopcount = toSizeT a.frequency ∧ 0 < a.port then 0
        else s.loopcount) + 1) % 2 ^ 64 := by
  rw [frame_fst]

/-- The frame counter at the start of iteration `k` when scans are published
every `N` frames: 0 at the first iteration, afterwards the remainder `r` of `k`
in `1..N`. -/
theorem counter_step (a : Args) (N : Nat) (hN : 1 ≤ N) (hN31 : N < 2 ^ 31)
    (hfreq : toSizeT a.frequency = N) (hport : 0 < a.port)
    (k : Nat) (s : LoopState) (inp : FrameInput)
    (hP : (k = 0 ∧ s.loopcount = 0) ∨
      ∃ q r, k = q * N + r ∧ 1 ≤ r ∧ r ≤ N ∧ s.loopcount = r) :
    ((k + 1 = 0 ∧ (frame true a s inp).1.loopcount = 0) ∨
      ∃ q r, k + 1 = q * N + r ∧ 1 ≤ r ∧ r ≤ N ∧ (frame true a s inp).1.loopcount = r) := by
  right
  rw [frame_loopcount, hfreq]
  rcases hP with ⟨hk, hlc⟩ | ⟨q, r, hk, h1, h2, hlc⟩
  · refine ⟨0, 1, by omega, le_refl 1, hN, ?_⟩
    have hne : ¬ (true = true ∧ s.loopcount = N ∧ 0 < a.port) := by
      rintro ⟨-, h, -⟩
      omega
    rw [if_neg hne, hlc]
    rfl
  · by_cases hr : r = N
    · refine ⟨q + 1, 1, ?_, le_refl 1, hN, ?_⟩
      · rw [Nat.succ_mul]
        omega
      · have hc : (true = true ∧ s.loopcount = N ∧ 0 < a.port) := ⟨rfl, by omega, hport⟩
        rw [if_pos hc]
        rfl
    · refine ⟨q, r + 1, by omega, by omega, by omega, ?_⟩
      have hne : ¬ (true = true ∧ s.loopcount = N ∧ 0 < a.port) := by
        rintro ⟨-, h, -⟩
        omega
      rw [if_neg hne, hlc]
      omega

/-- C2 (streaming cadence): in the streaming build with a positive port and a
frequency `N ≥ 1`, the iteration with 0-based index `i` publishes a scan if and
only if `i > 0` and `N` divides `i`; it does so exactly when the frame counter
equals `N` on entry, and it leaves the counter at 1: reset to 0 by the publish,
then incremented at the end of the iteration. -/
theorem streaming_cadence (w : World) (argv : List String) (a : Args)
    (h : parseArgs w argv = .ok a) (hport : 0 < a.port) (hN : 1 ≤ a.frequency)
    (i : Nat) (f : FrameRecord) (hf : (main true w argv).frames.get? i = some f) :
    ((∃ e ∈ f.events, e.isPublish = true) ↔ (0 < i ∧ a.frequency ∣ (i : Int))) ∧
    ((∃ e ∈ f.events, e.isPublish = true) ↔ (f.before.loopcount : Int) = a.frequency) ∧
    ((∃ e ∈ f.events, e.isPublish = true) → f.after.loopcount = 1) := by
  obtain ⟨-, hhi⟩ := frequency_range w argv a h
  obtain ⟨N, hNeq⟩ : ∃ N : Nat, a.frequency = (N : Int) := ⟨a.frequency.toNat, by omega⟩
  have hN1 : 1 ≤ N := by omega
  have hN31 : N < 2 ^ 31 := by omega
  have hfreq : toSizeT a.frequency = N := by
    have := toSizeT_of_range a.frequency (by omega) hhi
    omega
  rw [main_ok true w argv a h] at hf
  cases hinit : w.initOK
  · simp [hinit] at hf
  · simp only [hinit, if_true] at hf
    obtain ⟨hP, -, hev, haft⟩ :=
      loop_invariant true a
        (fun k s => (k = 0 ∧ s.loopcount = 0) ∨
          ∃ q r, k = q * N + r ∧ 1 ≤ r ∧ r ≤ N ∧ s.loopcount = r)
        (fun k s inp hP => counter_step a N hN1 hN31 hfreq hport k s inp hP)
        w.inputs (initialState w a) 0 (Or.inl ⟨rfl, rfl⟩) i f hf
    simp only [Nat.zero_add] at hP
    have hpub : (∃ e ∈ f.events, e.isPublish = true) ↔ f.before.loopcount = N := by
      rw [hev, frame_publish_iff, hfreq]
      exact ⟨fun hc => hc.1, fun hc => ⟨hc, hport⟩⟩
    have hdiv : f.before.loopcount = N ↔ (0 < i ∧ N ∣ i) := by
      rcases hP with ⟨hi0, hlc⟩ | ⟨q, r, hi, h1, h2, hlc⟩
      · constructor
        · intro hc; omega
        · intro hc; omega
      · constructor
        · intro hc
          have hr : r = N := by omega
          subst hr
          refine ⟨by omega, ?_⟩
          rw [hi]
          exact Dvd.intro_left (q + 1) (by rw [Nat.succ_mul])
        · rintro ⟨-, hd⟩
          rw [hi] at hd
          have hdr : N ∣ r := (Nat.dvd_add_right (Dvd.intro_left q rfl)).1 hd
          have := Nat.le_of_dvd (by omega) hdr
          omega
    refine ⟨?_, ?_, ?_⟩
    · rw [hpub, hdiv, hNeq, Int.natCast_dvd_natCast]
    · rw [hpub, hNeq]
      exact ⟨fun hc => by rw [hc], fun hc => by exact_mod_cast hc⟩
    · intro hp
      have hlc := hpub.1 hp
      rw [haft, frame_loopcount, hfreq]
      have hc : (true = true ∧ f.before.loopcount = N ∧ 0 < a.port) := ⟨rfl, hlc, hport⟩
      rw [if_pos hc]
      rfl

/-- Witness of `streaming_cadence`: at frequency 2 the iteration of index 2
publishes. -/
theorem streaming_cadence_witness :
    ∃ f, (main true (sampleWorld [quiet 3, quiet 7, quiet 8, quiet 9]) argvStream).frames.get? 2
        = some f ∧
      ((∃ e ∈ f.events, e.isPublish = true) ↔ (0 < 2 ∧ streamArgs.frequency ∣ ((2 : Nat) : Int))) ∧
      Event.send .publisher 12 ∈ f.events :=
  ⟨{ before := { last_time := 3, current_time := 7, delta_time := 1, rx := 2, ry := 0, rz := 0,
                 mouse_button_pressed := false, s_key_pressed := false,
                 save_and_quit := false, saved_now_quit := false, loopcount := 2 },
     input := quiet 8,
     events := [Event.render 20 3 0 0 false, Event.write_point_cloud 256 256,
                Event.send .publisher 12],
     after := { last_time := 7, current_time := 8, delta_time := 1, rx := 3, ry := 0, rz := 0,
                mouse_button_pressed := false, s_key_pressed := false,
                save_and_quit := false, saved_now_quit := false, loopcount := 1 } },
   by decide!,
   (streaming_cadence (sampleWorld [quiet 3, quiet 7, quiet 8, quiet 9]) argvStream streamArgs
      (by decide!) (by decide) (by decide) 2 _ (by decide!)).1,
   by decide⟩

/-! ## Renders before extraction -/

theorem precededBy_of_none (X Y : Event → Prop) (l : List Event) (h : ∀ x ∈ l, ¬ X x) :
    PrecededBy X Y l := by
  intro pre x post hl hx
  exact absurd hx (h x (by rw [hl]; simp))

theorem precededBy_append (X Y : Event → Prop) (l1 l2 : List Event)
    (h1 : PrecededBy X Y l1) (h2 : PrecededBy X Y l2) : PrecededBy X Y (l1 ++ l2) := by
  intro pre x post hl hx
  rcases List.append_eq_append_iff.1 hl with ⟨m, hpre, hl2⟩ | ⟨m, hl1, hpost⟩
  · obtain ⟨pre1, y, hm, hy⟩ := h2 m x post hl2 hx
    exact ⟨l1 ++ pre1, y, by rw [hpre, hm, List.append_assoc], hy⟩
  · cases m with
    | nil =>
      simp only [List.nil_append] at hpost
      obtain ⟨pre1, y, hm, -⟩ := h2 [] x post hpost.symm hx
      simp at hm
    | cons z m =>
      simp only [List.cons_append, List.cons.injEq] at hpost
      rw [← hpost.1] at hl1
      exact h1 pre x m hl1 hx

theorem precededBy_flatten (X Y : Event → Prop) (ls : List (List Event))
    (h : ∀ l ∈ ls, PrecededBy X Y l) : PrecededBy X Y ls.flatten := by
  induction ls with
  | nil => exact precededBy_of_none X Y _ (by simp)
  | cons l ls ih =>
    rw [List.flatten_cons]
    exact precededBy_append X Y _ _ (h l (by simp)) (ih (fun l1 hl1 => h l1 (by simp [hl1])))

theorem precededBy_three (X Y : Event → Prop) (y x z : Event) (hy : ¬ X y) (hY : Y y)
    (hz : ¬ X z) : PrecededBy X Y [y, x, z] := by
  intro pre x1 post hl hx
  rcases pre with _ | ⟨p, _ | ⟨q, _ | ⟨r, t⟩⟩⟩
  · simp at hl
    rw [← hl.1] at hx
    exact absurd hx hy
  · simp at hl
    exact ⟨[], y, by simp [hl.1], hY⟩
  · simp at hl
    rw [← hl.2.2.1] at hx
    exact absurd hx hz
  · simp at hl

theorem precededBy_mono (X X1 Y Y1 : Event → Prop) (l : List Event)
    (hX : ∀ e, X1 e → X e) (hY : ∀ e, Y e → Y1 e) (h : PrecededBy X Y l) :
    PrecededBy X1 Y1 l := by
  intro pre x post hl hx
  obtain ⟨pre1, y, hp, hy⟩ := h pre x post hl (hX x hx)
  exact ⟨pre1, y, hp, hY y hy⟩

/-- In one frame, each `save_point_cloud` comes right after a render without
the box at the rotation the frame started with, and each `write_point_cloud`
right after a render without the box at the rotation the frame ends with. -/
theorem frame_extraction (zmq : Bool) (a : Args) (s : LoopState) (inp : FrameInput) :
    PrecededBy (fun e => e.isSavePointCloud = true)
      (fun e => e = Event.render a.fov s.rx s.ry s.rz false) (frame zmq a s inp).2 ∧
    PrecededBy (fun e => ∃ wd ht, e = Event.write_point_cloud wd ht)
      (fun e => e = Event.render a.fov (frame zmq a s inp).1.rx (frame zmq a s inp).1.ry
        (frame zmq a s inp).1.rz false) (frame zmq a s inp).2 := by
  rw [frame_snd, frame_fst]
  constructor
  · refine precededBy_append _ _ _ _ (precededBy_append _ _ _ _ (precededBy_append _ _ _ _
      (precededBy_of_none _ _ _ ?_) ?_) (precededBy_of_none _ _ _ ?_))
      (precededBy_of_none _ _ _ ?_)
    · intro x hx
      simp only [cameraKeys, List.mem_append] at hx
      rcases hx with hx | hx <;> split at hx <;> simp at hx <;> subst hx <;>
        simp [Event.isSavePointCloud]
    · split
      · exact precededBy_three _ _ _ _ _ (by simp [Event.isSavePointCloud]) rfl
          (by simp [Event.isSavePointCloud])
      · exact precededBy_of_none _ _ _ (by simp)
    · intro x hx
      split at hx
      · simp at hx
        rcases hx with rfl | rfl <;> simp [Event.isSavePointCloud]
      · simp at hx
    · intro x hx
      cases zmq
      · simp at hx
        subst hx
        simp [Event.isSavePointCloud]
      · simp only [if_true] at hx
        split at hx
        · simp at hx
          rcases hx with rfl | rfl | rfl <;> simp [Event.isSavePointCloud]
        · simp at hx
          subst hx
          simp [Event.isSavePointCloud]
  · refine precededBy_append _ _ _ _ (precededBy_append _ _ _ _ (precededBy_append _ _ _ _
      (precededBy_of_none _ _ _ ?_) (precededBy_of_none _ _ _ ?_))
      (precededBy_of_none _ _ _ ?_)) ?_
    · intro x hx
      simp only [cameraKeys, List.mem_append] at hx
      rcases hx with hx | hx <;> split at hx <;> simp at hx <;> subst hx <;> simp
    · intro x hx
      split at hx
      · simp at hx
        rcases hx with rfl | rfl | rfl <;> simp
      · simp at hx
    · intro x hx
      split at hx
      · simp at hx
        rcases hx with rfl | rfl <;> simp
      · simp at hx
    · cases zmq
      · exact precededBy_of_none _ _ _ (by simp)
      · simp only [if_true]
        split
        · exact precededBy_three _ _ _ _ _ (by simp) rfl (by simp)
        · exact precededBy_of_none _ _ _ (by simp)

/-- A render with the box is the last call of a frame of the build without
ZeroMQ, at the rotation the frame ends with. -/
theorem frame_box_render (zmq : Bool) (a : Args) (s : LoopState) (inp : FrameInput)
    (fov x y z : ℚ) (h : Event.render fov x y z true ∈ (frame zmq a s inp).2) :
    zmq = false ∧
    Event.render fov x y z true =
      Event.render a.fov (frame zmq a s inp).1.rx (frame zmq a s inp).1.ry
        (frame zmq a s inp).1.rz true ∧
    (frame zmq a s inp).2.getLast? = some (Event.render fov x y z true) := by
  rw [frame_snd] at h
  rw [frame_snd, frame_fst]
  simp only [List.mem_append, cameraKeys] at h
  rcases h with ((h | h) | h) | h
  · rcases h with h | h <;> split at h <;> simp at h
  · split at h <;> simp at h
  · split at h <;> simp at h
  · cases zmq
    · simp at h
      simp [h]
    · simp only [if_true] at h
      split at h <;> simp at h

theorem precededBy_or (X1 X2 Y : Event → Prop) (l : List Event)
    (h1 : PrecededBy X1 Y l) (h2 : PrecededBy X2 Y l) :
    PrecededBy (fun e => X1 e ∨ X2 e) Y l := by
  intro pre x post hl hx
  rcases hx with hx | hx
  · exact h1 pre x post hl hx
  · exact h2 pre x post hl hx

theorem isExtraction_iff (e : Event) :
    e.isExtraction = true ↔
      (e.isSavePointCloud = true ∨ ∃ wd ht, e = Event.write_point_cloud wd ht) := by
  cases e <;> simp [Event.isExtraction, Event.isSavePointCloud]

/-- C6 (no auxiliary geometry in extracted data): in both builds and in every
run, each call that extracts a point cloud (`save_point_cloud`,
`write_point_cloud`) comes right after a six-argument `scene.render` call
whose show-box flag is `false`; within its iteration that render is made at
the current rotation, that is, for a capture the angles the iteration started
with and for a publish the angles just advanced, which the iteration ends
with; and a render with the flag `true` occurs only in the build without
ZeroMQ, as the last call of an iteration, at the advanced angles. -/
theorem extraction_after_boxless_render (zmq : Bool) (w : World) (argv : List String) :
    PrecededBy (fun e => e.isExtraction = true) (fun e => e.isBoxlessRender = true)
      (main zmq w argv).trace ∧
    (∀ f ∈ (main zmq w argv).frames,
      PrecededBy (fun e => e.isSavePointCloud = true)
        (fun e => ∃ fov, e = Event.render fov f.before.rx f.before.ry f.before.rz false)
        f.events ∧
      PrecededBy (fun e => ∃ wd ht, e = Event.write_point_cloud wd ht)
        (fun e => ∃ fov, e = Event.render fov f.after.rx f.after.ry f.after.rz false)
        f.events ∧
      ∀ fov x y z, Event.render fov x y z true ∈ f.events →
        x = f.after.rx ∧ y = f.after.ry ∧ z = f.after.rz ∧
        f.events.getLast? = some (Event.render fov x y z true)) ∧
    (∀ fov x y z, Event.render fov x y z true ∈ (main zmq w argv).trace → zmq = false) := by
  have hframes : ∀ a s inps, ∀ f ∈ (loop zmq a s inps).1,
      PrecededBy (fun e => e.isSavePointCloud = true)
        (fun e => ∃ fov, e = Event.render fov f.before.rx f.before.ry f.before.rz false)
        f.events ∧
      PrecededBy (fun e => ∃ wd ht, e = Event.write_point_cloud wd ht)
        (fun e => ∃ fov, e = Event.render fov f.after.rx f.after.ry f.after.rz false)
        f.events ∧
      ∀ fov x y z, Event.render fov x y z true ∈ f.events →
        zmq = false ∧ x = f.after.rx ∧ y = f.after.ry ∧ z = f.after.rz ∧
        f.events.getLast? = some (Event.render fov x y z true) := by
    intro a s inps f hf
    obtain ⟨hev, haft⟩ := loop_records zmq a inps s f hf
    rw [hev, haft]
    obtain ⟨h1, h2⟩ := frame_extraction zmq a f.before f.input
    refine ⟨precededBy_mono _ _ _ _ _ (fun _ h => h) (fun e h => ⟨a.fov, h⟩) h1,
      precededBy_mono _ _ _ _ _ (fun _ h => h) (fun e h => ⟨a.fov, h⟩) h2, ?_⟩
    intro fov x y z hmem
    obtain ⟨hz, heq, hlast⟩ := frame_box_render zmq a f.before f.input fov x y z hmem
    injection heq with _ hx hy hzz _
    exact ⟨hz, hx, hy, hzz, hlast⟩
  cases hp : parseArgs w argv with
  | error e =>
    rw [main_fault zmq w argv e hp]
    refine ⟨precededBy_of_none _ _ _ (by simp [Run.trace]), by simp, by simp [Run.trace]⟩
  | ok a =>
    rw [main_ok zmq w argv a hp]
    have hsetup : ∀ e ∈ (if zmq = true ∧ 0 < a.port then sync_publish a.port else []),
        e.onSocket = true := by
      intro e he
      split at he
      · simp [sync_publish] at he
        rcases he with rfl | rfl | rfl | rfl <;> rfl
      · simp at he
    cases hinit : w.initOK
    · simp only [Bool.false_eq_true, if_false, Run.trace, List.map_nil, List.flatten_nil,
        List.append_nil]
      refine ⟨precededBy_of_none _ _ _ ?_, by simp, ?_⟩
      · intro e he hx
        have := hsetup e he
        cases e <;> simp [Event.isExtraction, Event.onSocket] at hx this
      · intro fov x y z he
        have := hsetup _ he
        simp [Event.onSocket] at this
    · simp only [if_true, Run.trace]
      refine ⟨precededBy_append _ _ _ _ (precededBy_of_none _ _ _ ?_)
        (precededBy_flatten _ _ _ ?_), ?_, ?_⟩
      · intro e he hx
        rcases List.mem_append.1 he with he | he
        · have := hsetup e he
          cases e <;> simp [Event.isExtraction, Event.onSocket] at hx this
        · simp at he
          subst he
          simp [Event.isExtraction] at hx
      · intro l hl
        obtain ⟨f, hf, rfl⟩ := List.mem_map.1 hl
        obtain ⟨h1, h2, -⟩ := hframes a _ _ f hf
        have h := precededBy_or _ _ (fun e => e.isBoxlessRender = true) f.events
          (precededBy_mono _ _ _ _ _ (fun _ h => h)
            (fun e h => by obtain ⟨fov, rfl⟩ := h; rfl) h1)
          (precededBy_mono _ _ _ _ _ (fun _ h => h)
            (fun e h => by obtain ⟨fov, rfl⟩ := h; rfl) h2)
        exact precededBy_mono _ _ _ _ _ (fun e he => (isExtraction_iff e).1 he) (fun _ h => h) h
      · intro f hf
        obtain ⟨h1, h2, h3⟩ := hframes a _ _ f hf
        exact ⟨h1, h2, fun fov x y z hm => (h3 fov x y z hm).2⟩
      · intro fov x y z he
        rcases List.mem_append.1 he with he | he
        · rcases List.mem_append.1 he with he | he
          · have := hsetup _ he
            simp [Event.onSocket] at this
          · simp at he
        · obtain ⟨l, hl, hel⟩ := List.mem_flatten.1 he
          obtain ⟨f, hf, rfl⟩ := List.mem_map.1 hl
          exact ((hframes a _ _ f hf).2.2 fov x y z hel).1

/-- Witness of `extraction_after_boxless_render`: in the file-mode run of the
build without ZeroMQ the capture of the second iteration follows a render
without the box. -/
theorem extraction_after_boxless_render_witness :
    (main false (sampleWorld [quiet 3, quiet 7, quiet 8]) argvFile).trace =
      [ Event.projection_setup 20, Event.render 20 1 0 0 true, Event.render 20 1 0 0 false,
        Event.save_point_cloud "scan" 256 256,
        Event.save_transformation_metadata "scan" 1 0 0, Event.render 20 2 0 0 true ] ∧
    ∃ pre1 y,
      [ Event.projection_setup 20, Event.render 20 1 0 0 true, Event.render 20 1 0 0 false ]
        = pre1 ++ [y] ∧ y.isBoxlessRender = true :=
  ⟨by decide!,
   (extraction_after_boxless_render false (sampleWorld [quiet 3, quiet 7, quiet 8]) argvFile).1
     _ (Event.save_point_cloud "scan" 256 256)
     [Event.save_transformation_metadata "scan" 1 0 0, Event.render 20 2 0 0 true]
     (by decide!) rfl⟩

/-! ## Rotation -/

/-- What the loop body does to the rotation and the timers: the angles advance
by the rate times `delta_time`, the timer readings shift, and `delta_time`
keeps its value. -/
theorem frame_rotation (zmq : Bool) (a : Args) (s : LoopState) (inp : FrameInput) :
    (frame zmq a s inp).1.rx = s.rx + a.model_rotate_x * s.delta_time ∧
    (frame zmq a s inp).1.ry = s.ry + a.model_rotate_y * s.delta_time ∧
    (frame zmq a s inp).1.rz = s.rz + a.model_rotate_z * s.delta_time ∧
    (frame zmq a s inp).1.delta_time = s.delta_time ∧
    (frame zmq a s inp).1.last_time = s.current_time ∧
    (frame zmq a s inp).1.current_time = inp.time := by
  rw [frame_fst]
  exact ⟨rfl, rfl, rfl, rfl, rfl, rfl⟩

/-- C5: the rotation step does not follow the elapsed time. With rotation rate
1 about x and timer readings 1 (before the loop), 3 and 7 (at the end of the
first two iterations), the third iteration starts with `last_time = 3` and
`current_time = 7`, yet it advances `rx` by `1 * 1`, the rate times the
`delta_time` computed once before the loop, and not by `1 * (7 - 3)`. -/
theorem rotation_ignores_elapsed_time :
    ∃ f, (main false (sampleWorld [quiet 3, quiet 7, quiet 8]) argvStream).frames.get? 2
        = some f ∧
      f.before.last_time = 3 ∧ f.before.current_time = 7 ∧ f.before.delta_time = 1 ∧
      f.after.rx = f.before.rx + streamArgs.model_rotate_x * 1 ∧
      f.after.rx ≠ f.before.rx +
        streamArgs.model_rotate_x * (f.before.current_time - f.before.last_time) :=
  ⟨{ before := { last_time := 3, current_time := 7, delta_time := 1, rx := 2, ry := 0, rz := 0,
                 mouse_button_pressed := false, s_key_pressed := false,
                 save_and_quit := false, saved_now_quit := false, loopcount := 2 },
     input := quiet 8,
     events := [Event.render 20 3 0 0 true],
     after := { last_time := 7, current_time := 8, delta_time := 1, rx := 3, ry := 0, rz := 0,
                mouse_button_pressed := false, s_key_pressed := false,
                save_and_quit := false, saved_now_quit := false, loopcount := 3 } },
   by decide!, by decide!, by decide!, by decide!, by decide!, by decide!⟩

end Glidar
